import Mathlib

/-!
A shallow embedding of `multinet/listener.go` (package `multinet`): a
`net.Listener` aggregating multiple underlying `net.Listener`s.

Modelling choices, each tied to a construct of the source:

* A `net.Addr` is a pair of its `Network()` and `String()` values.
* An underlying `net.Listener` is a record carrying the data the aggregator
  observes: its address, the error its `Close` returns, whether it satisfies
  the `deadlineListener` interface (the `ln.(deadlineListener)` type
  assertion), the error its `SetDeadline(t)` returns, its dynamic type name
  (the `%T` verb of the unsupported-deadline error), plus mutable state: the
  list of deadlines applied to it so far and whether it has been closed.
* The aggregating `Listener` carries the listener list `ls`, the two
  `sync.Once` guards as booleans (`acceptStarted` for `acceptOnce`,
  `closeCalled` for `closeOnce`), the closed-ness of the `doneC` channel as
  a boolean (`doneClosed`), and the contents of the buffered `acceptC`
  channel as a FIFO list.
* `Accept`'s `select` over `acceptC` and `doneC` is modelled with an explicit
  `SelectChoice` parameter: when both channel operations are ready, Go's
  `select` picks nondeterministically, and the parameter names the pick; when
  only one is ready that one fires; when neither is ready `Accept` blocks,
  modelled as `none`.
* `Close` additionally returns the ordered trace of its shutdown effects
  (`close(l.doneC)`, each `ln.Close()`, the deferred `l.wg.Wait()`), so that
  order and multiplicity of the effects can be stated.
* The accept-worker goroutines (`Listener.accept`) are abstracted by the
  `acceptC` buffer contents; the claims below only observe the buffer.
-/

/-- Time stands in for Go's `time.Time`; only its identity matters here. -/
abbrev Time := Int

/-- Errors are their message strings; `none : Option Err` is Go's `nil` error. -/
abbrev Err := String

/-- A connection handle; `none : Option Conn` is Go's `nil` `net.Conn`. -/
structure Conn where
  id : Nat
deriving DecidableEq, Repr

/-- A `net.Addr` as observed through its two methods. -/
structure NetAddr where
  network : String
  string : String
deriving DecidableEq, Repr

/-- An underlying `net.Listener`, as the aggregator observes it. -/
structure NetListener where
  addr : NetAddr
  /-- The error `ln.Close()` returns. -/
  closeErr : Option Err
  /-- Whether the `ln.(deadlineListener)` type assertion succeeds. -/
  supportsDeadline : Bool
  /-- The error `ln.SetDeadline(t)` returns, when supported. -/
  setDeadlineErr : Time → Option Err
  /-- The dynamic type name printed by the `%T` verb. -/
  typeName : String
  /-- Mutable state: deadlines applied so far, in application order. -/
  deadlines : List Time
  /-- Mutable state: whether `ln.Close()` has been invoked. -/
  closed : Bool

/-- `multinet.Addr`: `type Addr []net.Addr`. -/
abbrev Addr := List NetAddr

/-- `Addr.join`: collect `fn` over the addresses, comma-separated. -/
def Addr.join (a : Addr) (fn : NetAddr → String) : String :=
  String.intercalate "," (a.map fn)

/-- `Addr.Network`: comma-separated `Network` values. -/
def Addr.Network (a : Addr) : String :=
  a.join (fun addr => addr.network)

/-- `Addr.String`: comma-separated `String` values. -/
def Addr.String (a : Addr) : String :=
  a.join (fun addr => addr.string)

/-- The `accept` struct: result of an underlying `Accept`. -/
structure accept where
  c : Option Conn
  err : Option Err
deriving DecidableEq, Repr

/-- `multinet.Listener` state. -/
structure Listener where
  ls : List NetListener
  /-- `acceptOnce` has fired: the accept workers have been spawned. -/
  acceptStarted : Bool
  /-- `closeOnce` has fired. -/
  closeCalled : Bool
  /-- `doneC` has been closed. -/
  doneClosed : Bool
  /-- Buffered contents of `acceptC`, head = next to be received. -/
  acceptC : List accept

/-- `multinet.Listen`: fresh aggregator over `ls`. -/
def Listen (ls : List NetListener) : Listener :=
  { ls := ls
    acceptStarted := false
    closeCalled := false
    doneClosed := false
    acceptC := [] }

/-- The error of `Accept` on a Listener with no underlying listeners. -/
def errNoListeners : Err :=
  "multinet: no net.Listeners added to Listener"

/-- The error of `Accept` once the done channel is closed. -/
def errClosed : Err :=
  "multinet: use of closed network connection"

/-- The error of `SetDeadline` when a listener lacks the method. -/
def errUnsupported (tn : String) : Err :=
  s!"multinet: net.Listener {tn} does not have a SetDeadline method"

/-- `Listener.Addr`: aggregate the underlying addresses in order. -/
def Listener.Addr (l : Listener) : Addr :=
  l.ls.map (fun ln => ln.addr)

/-- The pick made by Go's `select` when both of `Accept`'s cases are ready. -/
inductive SelectChoice where
  | recv
  | done
deriving DecidableEq, Repr

/-- `Listener.Accept`. Returns `none` when the call would block; otherwise
`some ((conn, err), l')` with the updated Listener state. The zero-listener
check precedes `acceptOnce.Do`; the `select` is resolved from the channel
states and, when both cases are ready, the `SelectChoice`. -/
def Listener.Accept (l : Listener) (ch : SelectChoice) :
    Option ((Option Conn × Option Err) × Listener) :=
  if l.ls.isEmpty then
    some ((none, some errNoListeners), l)
  else
    match l.acceptC, l.doneClosed, ch with
    | a :: rest, false, _ =>
        some ((a.c, a.err), { l with acceptStarted := true, acceptC := rest })
    | a :: rest, true, SelectChoice.recv =>
        some ((a.c, a.err), { l with acceptStarted := true, acceptC := rest })
    | _ :: _, true, SelectChoice.done =>
        some ((none, some errClosed), { l with acceptStarted := true })
    | [], true, _ =>
        some ((none, some errClosed), { l with acceptStarted := true })
    | [], false, _ => none

/-- `if lerr != nil && err == nil { err = lerr }`: keep the first error. -/
def keepFirst (err lerr : Option Err) : Option Err :=
  match lerr, err with
  | some e, none => some e
  | _, _ => err

/-- The first loop of `SetDeadline`: the first listener failing the
`deadlineListener` type assertion, if any. -/
def findUnsupported : List NetListener → Option NetListener
  | [] => none
  | ln :: rest => if ln.supportsDeadline then findUnsupported rest else some ln

/-- `Listener.SetDeadline`: validate that every underlying listener supports
deadlines (returning the unsupported error on the first that does not,
before mutating anything), then apply `t` to every one of them in order,
keeping only the first application error. -/
def Listener.SetDeadline (l : Listener) (t : Time) : Option Err × Listener :=
  match findUnsupported l.ls with
  | some ln => (some (errUnsupported ln.typeName), l)
  | none =>
      (l.ls.foldl (fun err ln => keepFirst err (ln.setDeadlineErr t)) none,
       { l with
          ls := l.ls.map (fun ln => { ln with deadlines := ln.deadlines ++ [t] }) })

/-- One shutdown side effect of `Close`, in execution order. -/
inductive CloseEvent where
  /-- `close(l.doneC)`. -/
  | fireDone
  /-- `l.ls[i].Close()`. -/
  | closeUnder (i : Nat)
  /-- The deferred `l.wg.Wait()`. -/
  | waitWorkers
deriving DecidableEq, Repr

/-- `Listener.Close`: on the first call (guarded by `closeOnce`), close
`doneC`, close every underlying listener collecting the first error, and
finally run the deferred `wg.Wait`; the trace of these effects is returned
in order. Later calls return a nil error and do nothing. -/
def Listener.Close (l : Listener) : Option Err × Listener × List CloseEvent :=
  if l.closeCalled then
    (none, l, [])
  else
    (l.ls.foldl (fun err ln => keepFirst err ln.closeErr) none,
     { l with
        closeCalled := true
        doneClosed := true
        ls := l.ls.map (fun ln => { ln with closed := true }) },
     CloseEvent.fireDone ::
       ((List.range l.ls.length).map CloseEvent.closeUnder ++ [CloseEvent.waitWorkers]))

/-! Concrete fixtures used by witnesses and counterexamples. -/

/-- A TCP-style address. -/
def tcpAddr : NetAddr := { network := "tcp", string := "127.0.0.1:8080" }

/-- A Unix-socket-style address. -/
def unixAddr : NetAddr := { network := "unix", string := "/tmp/test.sock" }

/-- A well-behaved underlying listener. -/
def lnOK : NetListener :=
  { addr := tcpAddr
    closeErr := none
    supportsDeadline := true
    setDeadlineErr := fun _ => none
    typeName := "*net.TCPListener"
    deadlines := []
    closed := false }

/-- An underlying listener whose `Close` fails. -/
def lnBoom : NetListener :=
  { lnOK with closeErr := some "boom" }

/-- An underlying listener lacking the `SetDeadline` method. -/
def lnNoDeadline : NetListener :=
  { lnOK with
      addr := unixAddr
      supportsDeadline := false
      typeName := "*multinet_test.noDeadlineListener" }

/-- An underlying listener whose `SetDeadline` fails. -/
def lnDeadlineFail : NetListener :=
  { lnOK with setDeadlineErr := fun _ => some "deadline error" }

/-- A zero-listener aggregator after its first `Close` has completed. -/
def emptyClosed : Listener := ((Listen []).Close).2.1

/-- A one-listener aggregator after its first `Close` has completed. -/
def oneClosed : Listener := ((Listen [lnOK]).Close).2.1

/-! Helper lemmas. -/

/-- Folding `keepFirst` from an already-set error never changes it. -/
theorem foldl_keepFirst_some {α : Type} (f : α → Option Err) (xs : List α) (e : Err) :
    xs.foldl (fun err x => keepFirst err (f x)) (some e) = some e := by
  induction xs with
  | nil => rfl
  | cons x xs ih =>
    rw [List.foldl_cons]
    cases f x
    · exact ih
    · exact ih

/-- Folding `keepFirst` from no error yields the first error produced. -/
theorem foldl_keepFirst_eq_findSome {α : Type} (f : α → Option Err) (xs : List α) :
    xs.foldl (fun err x => keepFirst err (f x)) none = xs.findSome? f := by
  induction xs with
  | nil => rfl
  | cons x xs ih =>
    rw [List.foldl_cons, List.findSome?_cons]
    cases f x
    · exact ih
    · exact foldl_keepFirst_some f xs _

/-- If some listener lacks deadline support, the first validation loop finds
one such listener. -/
theorem findUnsupported_of_exists (ls : List NetListener)
    (h : ∃ ln ∈ ls, ln.supportsDeadline = false) :
    ∃ ln, findUnsupported ls = some ln ∧ ln ∈ ls ∧ ln.supportsDeadline = false := by
  induction ls with
  | nil => simp at h
  | cons x xs ih =>
    by_cases hx : x.supportsDeadline
    · have h' : ∃ ln ∈ xs, ln.supportsDeadline = false := by
        rcases h with ⟨ln, hmem, hln⟩
        rcases List.mem_cons.mp hmem with rfl | hmem'
        · exact absurd hx (by simp [hln])
        · exact ⟨ln, hmem', hln⟩
      rcases ih h' with ⟨ln, hfind, hmem, hln⟩
      exact ⟨ln, by simp [findUnsupported, hx, hfind],
             List.mem_cons_of_mem _ hmem, hln⟩
    · exact ⟨x, by simp [findUnsupported, hx], List.mem_cons_self x xs,
             by simpa using hx⟩

/-- If every listener supports deadlines, validation passes. -/
theorem findUnsupported_eq_none (ls : List NetListener)
    (h : ∀ ln ∈ ls, ln.supportsDeadline = true) :
    findUnsupported ls = none := by
  induction ls with
  | nil => rfl
  | cons x xs ih =>
    rw [findUnsupported, if_pos (h x (List.mem_cons_self x xs))]
    exact ih (fun ln hln => h ln (List.mem_cons_of_mem _ hln))

/-- Each index below `n` appears exactly once among the underlying-close
events generated from `List.range n`. -/
theorem count_closeUnder_range (n i : Nat) (h : i < n) :
    ((List.range n).map CloseEvent.closeUnder).count (CloseEvent.closeUnder i) = 1 := by
  have hinj : Function.Injective CloseEvent.closeUnder := by
    intro a b hab
    simpa using hab
  refine List.count_eq_one_of_mem (List.Nodup.map hinj (List.nodup_range n)) ?_
  exact List.mem_map_of_mem _ (List.mem_range.mpr h)

/-! Claim theorems. -/

/-- Claim C1, counterexample: the claim says every Accept after a completed
Close returns the closed-use error; on a zero-listener Listener whose Close
has completed, Accept instead returns the no-listeners error, which differs
from the closed-use error. -/
theorem accept_after_close_not_always_closed_error :
    emptyClosed.closeCalled = true ∧ emptyClosed.doneClosed = true ∧
    emptyClosed.Accept SelectChoice.done
      = some ((none, some errNoListeners), emptyClosed) ∧
    errNoListeners ≠ errClosed :=
  ⟨rfl, rfl, rfl, by decide⟩

/-- Claim C1 (amended): once the done signal has fired and no Accept Result
remains buffered in the result channel, a subsequent Accept on a Listener
with at least one underlying listener returns a nil connection and the
closed-use error; on a zero-listener Listener it returns the no-listeners
error instead. -/
theorem accept_after_close_closed_error (l : Listener) (ch : SelectChoice)
    (h2 : l.doneClosed = true) (h3 : l.acceptC = []) :
    (l.ls.isEmpty = false →
      l.Accept ch = some ((none, some errClosed), { l with acceptStarted := true })) ∧
    (l.ls.isEmpty = true →
      l.Accept ch = some ((none, some errNoListeners), l)) := by
  constructor
  · intro h1
    cases ch <;> simp [Listener.Accept, h1, h2, h3]
  · intro h1
    simp [Listener.Accept, h1]

/-- Witness for C1 (amended) at a one-listener Listener after Close. -/
theorem accept_after_close_closed_error_witness :
    (oneClosed.doneClosed = true ∧ oneClosed.acceptC = [] ∧
      oneClosed.ls.isEmpty = false) ∧
    oneClosed.Accept SelectChoice.recv
      = some ((none, some errClosed), { oneClosed with acceptStarted := true }) :=
  ⟨⟨rfl, rfl, rfl⟩,
   (accept_after_close_closed_error oneClosed SelectChoice.recv rfl rfl).1 rfl⟩

/-- Claim C2: if any underlying listener does not support deadline setting,
SetDeadline returns the unsupported-capability error naming such a listener
and leaves the Listener (in particular every applied-deadline history)
unchanged. -/
theorem setDeadline_unsupported_no_mutation (l : Listener) (t : Time)
    (h : ∃ ln ∈ l.ls, ln.supportsDeadline = false) :
    (∃ ln ∈ l.ls, ln.supportsDeadline = false ∧
        (l.SetDeadline t).1 = some (errUnsupported ln.typeName)) ∧
    (l.SetDeadline t).2 = l := by
  rcases findUnsupported_of_exists l.ls h with ⟨ln, hfind, hmem, hln⟩
  refine ⟨⟨ln, hmem, hln, ?_⟩, ?_⟩ <;> simp [Listener.SetDeadline, hfind]

/-- Witness for C2: a two-listener set where the second member lacks
deadline support. -/
theorem setDeadline_unsupported_no_mutation_witness :
    (∃ ln ∈ (Listen [lnOK, lnNoDeadline]).ls, ln.supportsDeadline = false) ∧
    ((∃ ln ∈ (Listen [lnOK, lnNoDeadline]).ls, ln.supportsDeadline = false ∧
        ((Listen [lnOK, lnNoDeadline]).SetDeadline 7).1
          = some (errUnsupported ln.typeName)) ∧
      ((Listen [lnOK, lnNoDeadline]).SetDeadline 7).2 = Listen [lnOK, lnNoDeadline]) :=
  ⟨⟨lnNoDeadline, by simp [Listen], rfl⟩,
   setDeadline_unsupported_no_mutation (Listen [lnOK, lnNoDeadline]) 7
     ⟨lnNoDeadline, by simp [Listen], rfl⟩⟩

/-- Claim C3: the first Close closes every underlying listener exactly once
(one close event per index, and every member is marked closed) and returns
the error of the first underlying listener whose close failed, nil if none. -/
theorem close_first_call_closes_all_first_error (l : Listener)
    (h : l.closeCalled = false) :
    (l.Close).1 = l.ls.findSome? (fun ln => ln.closeErr) ∧
    (∀ i, i < l.ls.length →
      (l.Close).2.2.count (CloseEvent.closeUnder i) = 1) ∧
    (l.Close).2.1.ls = l.ls.map (fun ln => { ln with closed := true }) := by
  refine ⟨?_, ?_, ?_⟩
  · simp [Listener.Close, h, foldl_keepFirst_eq_findSome]
  · intro i hi
    simp [Listener.Close, h, List.count_cons, List.count_append,
          count_closeUnder_range _ _ hi]
  · simp [Listener.Close, h]

/-- Witness for C3: first member's close fails, second succeeds. -/
theorem close_first_call_closes_all_first_error_witness :
    (Listen [lnBoom, lnOK]).closeCalled = false ∧
    (((Listen [lnBoom, lnOK]).Close).1
        = (Listen [lnBoom, lnOK]).ls.findSome? (fun ln => ln.closeErr) ∧
      (∀ i, i < (Listen [lnBoom, lnOK]).ls.length →
        ((Listen [lnBoom, lnOK]).Close).2.2.count (CloseEvent.closeUnder i) = 1) ∧
      ((Listen [lnBoom, lnOK]).Close).2.1.ls
        = (Listen [lnBoom, lnOK]).ls.map (fun ln => { ln with closed := true })) :=
  ⟨rfl, close_first_call_closes_all_first_error (Listen [lnBoom, lnOK]) rfl⟩

/-- Claim C4: any Close after the first returns a nil error, leaves the
state untouched and performs no shutdown side effects (empty event trace). -/
theorem close_second_call_nil_no_effects (l : Listener)
    (h : l.closeCalled = true) :
    l.Close = (none, l, []) := by
  simp [Listener.Close, h]

/-- Witness for C4: the first Close of this Listener returned an error, yet
the second Close returns nil and does nothing. -/
theorem close_second_call_nil_no_effects_witness :
    ((Listen [lnBoom]).Close).1 = some "boom" ∧
    ((Listen [lnBoom]).Close).2.1.closeCalled = true ∧
    ((Listen [lnBoom]).Close).2.1.Close = (none, ((Listen [lnBoom]).Close).2.1, []) :=
  ⟨rfl, rfl, close_second_call_nil_no_effects ((Listen [lnBoom]).Close).2.1 rfl⟩

/-- Claim C5: when every underlying listener supports deadlines, SetDeadline
applies `t` to every one of them in construction order (even past failures)
and returns the first application error, nil if all succeed. -/
theorem setDeadline_applies_all_first_error (l : Listener) (t : Time)
    (h : ∀ ln ∈ l.ls, ln.supportsDeadline = true) :
    (l.SetDeadline t).1 = l.ls.findSome? (fun ln => ln.setDeadlineErr t) ∧
    (l.SetDeadline t).2.ls
      = l.ls.map (fun ln => { ln with deadlines := ln.deadlines ++ [t] }) := by
  have hn := findUnsupported_eq_none l.ls h
  constructor <;> simp [Listener.SetDeadline, hn, foldl_keepFirst_eq_findSome]

/-- Witness for C5: the first member's SetDeadline fails, the second still
receives the deadline, and the first error is returned. -/
theorem setDeadline_applies_all_first_error_witness :
    (∀ ln ∈ (Listen [lnDeadlineFail, lnOK]).ls, ln.supportsDeadline = true) ∧
    (((Listen [lnDeadlineFail, lnOK]).SetDeadline 5).1
        = (Listen [lnDeadlineFail, lnOK]).ls.findSome? (fun ln => ln.setDeadlineErr 5) ∧
      ((Listen [lnDeadlineFail, lnOK]).SetDeadline 5).2.ls
        = (Listen [lnDeadlineFail, lnOK]).ls.map
            (fun ln => { ln with deadlines := ln.deadlines ++ [5] })) :=
  ⟨by decide, setDeadline_applies_all_first_error (Listen [lnDeadlineFail, lnOK]) 5 (by decide)⟩

/-- Claim C6: Accept on a zero-listener Listener returns a nil connection
and the descriptive no-listeners error without blocking (it never returns
the blocking outcome) and without spawning workers (the state, including
the `acceptStarted` once-guard, is unchanged). -/
theorem accept_empty_immediate_error (l : Listener) (ch : SelectChoice)
    (h : l.ls = []) :
    l.Accept ch = some ((none, some errNoListeners), l) := by
  simp [Listener.Accept, h]

/-- Witness for C6 at a freshly constructed empty Listener. -/
theorem accept_empty_immediate_error_witness :
    (Listen []).ls = [] ∧
    (Listen []).Accept SelectChoice.recv
      = some ((none, some errNoListeners), Listen []) :=
  ⟨rfl, accept_empty_immediate_error (Listen []) SelectChoice.recv rfl⟩

/-- Claim C7: the first Close fires the done signal first, waits for the
workers last, and in between closes exactly the underlying listeners in
construction order. -/
theorem close_event_order (l : Listener) (h : l.closeCalled = false) :
    (l.Close).2.2.head? = some CloseEvent.fireDone ∧
    (l.Close).2.2.getLast? = some CloseEvent.waitWorkers ∧
    ((l.Close).2.2.drop 1).dropLast
      = (List.range l.ls.length).map CloseEvent.closeUnder := by
  refine ⟨?_, ?_, ?_⟩
  · simp [Listener.Close, h]
  · simp only [Listener.Close, h, Bool.false_eq_true, if_false]
    rw [← List.cons_append, List.getLast?_append_cons]
    rfl
  · simp [Listener.Close, h, List.dropLast_concat]

/-- Witness for C7 at a two-listener Listener. -/
theorem close_event_order_witness :
    (Listen [lnOK, lnNoDeadline]).closeCalled = false ∧
    (((Listen [lnOK, lnNoDeadline]).Close).2.2.head? = some CloseEvent.fireDone ∧
      ((Listen [lnOK, lnNoDeadline]).Close).2.2.getLast? = some CloseEvent.waitWorkers ∧
      (((Listen [lnOK, lnNoDeadline]).Close).2.2.drop 1).dropLast
        = (List.range (Listen [lnOK, lnNoDeadline]).ls.length).map CloseEvent.closeUnder) :=
  ⟨rfl, close_event_order (Listen [lnOK, lnNoDeadline]) rfl⟩

/-- Claim C8: the composite address's Network is the members' Network values
joined by commas in construction order, and its String is the members'
String values joined likewise. -/
theorem addr_network_string_join (l : Listener) :
    (Listener.Addr l).Network
        = String.intercalate "," (l.ls.map (fun ln => ln.addr.network)) ∧
    (Listener.Addr l).String
        = String.intercalate "," (l.ls.map (fun ln => ln.addr.string)) := by
  constructor <;>
    simp only [Listener.Addr, Addr.Network, Addr.String, Addr.join,
               List.map_map] <;> rfl

/-- Claim C9: on a zero-listener Listener, Addr succeeds and both the
Network and String forms are the empty string. -/
theorem addr_empty_listener :
    ((Listen []).Addr).Network = "" ∧ ((Listen []).Addr).String = "" :=
  ⟨rfl, rfl⟩

/-- Claim C10: SetDeadline on a zero-listener Listener returns a nil error
(vacuous success) while Accept on the same Listener fails with the
no-listeners error. -/
theorem setDeadline_empty_nil (t : Time) (ch : SelectChoice) :
    ((Listen []).SetDeadline t).1 = none ∧
    (Listen []).Accept ch = some ((none, some errNoListeners), Listen []) :=
  ⟨rfl, rfl⟩
